import Mathlib

/-!
Verification of the TokenWise backend core against its specification.

The definitions below are a shallow embedding of the TypeScript source:

* `broadcastToClients`            — src/backend/src/server.ts, lines 82-96
* `RealTimeMonitor`               — src/backend/src/server.ts, lines 182-308
  (`startMonitoring`, `stopMonitoring`, `getStatus`)
* the WebSocket message handler   — src/backend/src/server.ts, lines 326-418
* `RateLimiter.executeWithRetry`  — src/backend/src/services/solanaService.ts, lines 56-93
* `SolanaService.getTopTokenHolders` and `createSampleTokenHolders`
                                  — src/backend/src/services/solanaService.ts, lines 112-253
* `TransactionService.syncAllWalletTransactions`
                                  — src/backend/src/services/transactionService (lines 1073-1126
                                    of the combined source file)
* `WalletController.performBulkSync`
                                  — src/backend/src/controllers/walletController.ts, lines 173-222

Effectful JavaScript operations are made explicit: `Date.now` and `setTimeout`
become a natural-number clock threaded through the computation, `Math.random`
becomes an arbitrary function supplied as a parameter, database / RPC results
become parameters, and a synchronously thrown exception becomes an explicit
`threw` flag or an `Except`.  JavaScript `Set` and `Map` keep insertion order,
so both are embedded as lists (a `Map.set` on an existing key overwrites the
value in place, which `mapSet` reproduces).
-/

namespace TokenWise

/-- Ready state of a `ws` WebSocket.  The source only distinguishes
`WebSocket.OPEN` from everything else (`ws.readyState === WebSocket.OPEN`). -/
inductive ReadyState where
  | connecting
  | opened
  | closing
  | closed
  deriving DecidableEq, Repr

/-- One live WebSocket connection as `broadcastToClients` observes it: its
ready state, and whether a call to `ws.send` would throw synchronously. -/
structure Conn where
  id : Nat
  readyState : ReadyState
  sendThrows : Bool
  deriving DecidableEq, Repr

/-- Outcome of one `broadcastToClients` call: whether an exception escaped the
`forEach`, the value of the local `clientCount` at the point the function
returned or threw, and the contents of `wsConnections` afterwards. -/
structure BroadcastResult where
  threw : Bool
  count : Nat
  conns : List Conn
  deriving DecidableEq, Repr

/-- The body of the `wsConnections.forEach` loop in `broadcastToClients`
(server.ts, lines 86-93): an OPEN connection gets `ws.send(messageStr)` and
`clientCount++`; a non-OPEN connection is deleted from the set.  `ws.send` is
not wrapped in try/catch, so a synchronous throw escapes the `forEach`: the
throwing connection and all not-yet-visited connections stay in the set and
the deletions already performed stay done.  `kept` accumulates the visited
connections that remain registered, in reverse order. -/
def broadcastLoop : List Conn → Nat → List Conn → BroadcastResult
  | [], count, kept => ⟨false, count, kept.reverse⟩
  | c :: rest, count, kept =>
    if c.readyState = ReadyState.opened then
      if c.sendThrows then ⟨true, count, kept.reverse ++ (c :: rest)⟩
      else broadcastLoop rest (count + 1) (c :: kept)
    else broadcastLoop rest count kept

/-- `broadcastToClients` (server.ts, lines 82-96).  The JavaScript function
returns `undefined`; `clientCount` is only logged, which is why the embedding
exposes it as a field of the result rather than as a return value. -/
def broadcastToClients (conns : List Conn) : BroadcastResult :=
  broadcastLoop conns 0 []

/-- Aggregate counters returned by a batch sync run
(`{ success, failed }` in the source). -/
structure SyncTotals where
  success : Nat
  failed : Nat
  deriving DecidableEq, Repr

/-- The shared batch loop of `TransactionService.syncAllWalletTransactions`
and `WalletController.performBulkSync`: walk the worklist in consecutive
slices of `batchSize` (`wallets.slice(i, i + batchSize)`), run
`syncWalletTransactions` on every item of the slice with its own try/catch
(so one item's failure is recorded and cannot abort the run), collect the
per-item success flags with `Promise.allSettled`, and add the slice's
successes and failures to the running totals.  `fails w = true` means
`syncWalletTransactions` throws for wallet `w`; the inter-batch
`setTimeout(..., 2000)` delay does not affect the counts. -/
def bulkSyncGo (fails : String → Bool) (batchSize : Nat) : List String → SyncTotals
  | [] => ⟨0, 0⟩
  | a :: rest =>
    let batch := a :: rest.take (batchSize - 1)
    let s := batch.countP (fun w => !fails w)
    let f := batch.countP (fun w => fails w)
    let r := bulkSyncGo fails batchSize (rest.drop (batchSize - 1))
    ⟨s + r.success, f + r.failed⟩
  termination_by l => l.length
  decreasing_by simp; omega

/-- `TransactionService.syncAllWalletTransactions` (transactionService source,
lines 1073-1126): the batch size is hard-coded to 5, the worklist is the list
of active wallet addresses, and the function returns the final
`{ success, failed }` counters.  It takes no cancellation signal. -/
def syncAllWalletTransactions (fails : String → Bool) (wallets : List String) : SyncTotals :=
  bulkSyncGo fails 5 wallets

/-- `WalletController.performBulkSync` (walletController.ts, lines 173-222):
identical batch loop with a caller-supplied `batchSize`; the final counters
are only logged.  Neither this function nor `syncHistoricalData`, which
spawns it via `setImmediate`, takes or checks any cancellation signal. -/
def performBulkSync (fails : String → Bool) (batchSize : Nat) (walletAddresses : List String) :
    SyncTotals :=
  bulkSyncGo fails batchSize walletAddresses

/-- The upstream Solana RPC connection as the monitor sees it: the next
subscription id `onAccountChange` will hand out, and the ids of the currently
installed account-change listeners. -/
structure Upstream where
  nextId : Nat
  listeners : List Nat
  deriving DecidableEq, Repr

/-- `SolanaService.subscribeToAccountChanges` (solanaService.ts, lines
324-342): installs a fresh account-change listener and returns its id.
Every call installs a new upstream listener; there is no lookup of an
existing subscription. -/
def subscribeToAccountChanges (u : Upstream) : Nat × Upstream :=
  (u.nextId, ⟨u.nextId + 1, u.nextId :: u.listeners⟩)

/-- `SolanaService.unsubscribeFromAccountChanges` (solanaService.ts, lines
347-355): removes the listener with the given id. -/
def unsubscribeFromAccountChanges (u : Upstream) (subId : Nat) : Upstream :=
  ⟨u.nextId, u.listeners.erase subId⟩

/-- JavaScript `Map.prototype.set` on an association list kept in insertion
order: overwrite the value in place if the key is present, else append. -/
def mapSet (k : String) (v : Nat) : List (String × Nat) → List (String × Nat)
  | [] => [(k, v)]
  | (k2, v2) :: rest => if k2 = k then (k, v) :: rest else (k2, v2) :: mapSet k v rest

/-- The mutable fields of `RealTimeMonitor` (server.ts, lines 182-184):
`subscriptions : Map<string, number>` and `isMonitoring`. -/
structure MonitorState where
  subscriptions : List (String × Nat)
  isMonitoring : Bool
  deriving DecidableEq, Repr

/-- The server state the monitoring claims range over: the monitor's fields,
the `wsConnections` set, and the upstream connection. -/
structure ServerState where
  monitor : MonitorState
  wsConns : List Conn
  upstream : Upstream
  deriving DecidableEq, Repr

/-- The per-wallet loop of `RealTimeMonitor.startMonitoring` (server.ts,
lines 206-222): each wallet's `subscribeToAccountChanges` call sits in its
own try/catch, so a failure (`subFails w = true`) is logged and the loop
continues with the remaining wallets; on success the new subscription id is
stored with `subscriptions.set` and `subscriptionCount` is incremented. -/
def subscribeLoop (subFails : String → Bool) :
    List String → MonitorState → Upstream → MonitorState × Upstream
  | [], m, u => (m, u)
  | w :: rest, m, u =>
    if subFails w then subscribeLoop subFails rest m u
    else
      let p := subscribeToAccountChanges u
      subscribeLoop subFails rest ⟨mapSet w p.1 m.subscriptions, m.isMonitoring⟩ p.2

/-- `RealTimeMonitor.startMonitoring` (server.ts, lines 186-239).  `wallets`
is the address list `walletService.getAllWallets()` returned.  With an empty
list the loop is skipped; either way `isMonitoring` is set to `true` and a
`monitoring_started` event is pushed through `broadcastToClients`, whose
pruning of non-OPEN connections is part of the call's effect on
`wsConnections` (a send that throws would propagate after the subscription
map has already been updated). -/
def startMonitoring (wallets : List String) (subFails : String → Bool)
    (st : ServerState) : ServerState :=
  if wallets.isEmpty then
    ⟨⟨st.monitor.subscriptions, true⟩, (broadcastToClients st.wsConns).conns, st.upstream⟩
  else
    let p := subscribeLoop subFails wallets st.monitor st.upstream
    ⟨⟨p.1.subscriptions, true⟩, (broadcastToClients st.wsConns).conns, p.2⟩

/-- The unsubscribe loop of `RealTimeMonitor.stopMonitoring` (server.ts,
lines 245-252): every entry of the subscription map is unsubscribed, each in
its own try/catch (`unsubFails subId = true` means the upstream call throws;
the failure is logged and the loop continues). -/
def unsubscribeAll (unsubFails : Nat → Bool) :
    List (String × Nat) → Upstream → Upstream
  | [], u => u
  | (_, subId) :: rest, u =>
    if unsubFails subId then unsubscribeAll unsubFails rest u
    else unsubscribeAll unsubFails rest (unsubscribeFromAccountChanges u subId)

/-- `RealTimeMonitor.stopMonitoring` (server.ts, lines 241-268): unsubscribe
every watch, clear the subscription map, set `isMonitoring` to `false`, then
push a `monitoring_stopped` event through `broadcastToClients` — which prunes
non-OPEN connections from `wsConnections` as a side effect.  No code path
calls `ws.close()`, so no connection is ever disconnected here. -/
def stopMonitoring (unsubFails : Nat → Bool) (st : ServerState) : ServerState :=
  ⟨⟨[], false⟩, (broadcastToClients st.wsConns).conns,
    unsubscribeAll unsubFails st.monitor.subscriptions st.upstream⟩

/-- `RealTimeMonitor.getStatus` (server.ts, lines 302-307): a pure read of
`isMonitoring` and `subscriptions.size`. -/
def getStatus (st : ServerState) : Bool × Nat :=
  (st.monitor.isMonitoring, st.monitor.subscriptions.length)

/-- Result of one attempted upstream call inside the rate limiter: either a
value, or an error whose message does (`is429 = true`) or does not contain
the substring `429`. -/
inductive CallResult (α : Type) where
  | ok (v : α)
  | err (is429 : Bool)
  deriving DecidableEq, Repr

/-- Observable trace of `RateLimiter.executeWithRetry`: the final outcome,
how many times `fn` was attempted, and the backoff delays (in ms) slept
between consecutive attempts. -/
structure RetryTrace (α : Type) where
  result : CallResult α
  attempts : Nat
  delays : List Nat
  deriving DecidableEq, Repr

/-- `RateLimiter.maxRetries` (solanaService.ts, line 39). -/
def maxRetries : Nat := 3

/-- `RateLimiter.minInterval` (solanaService.ts, line 38), in ms. -/
def minInterval : Nat := 100

/-- `RateLimiter.executeWithRetry` (solanaService.ts, lines 56-76), with the
interval wait abstracted away (it is modelled separately by `dispatchTimes`)
and the behaviour of `fn` on its `i`-th attempt given by `fn i`.  A rate-limit
error (`429` in the message) with `retries < maxRetries` sleeps
`2 ^ retries * 1000` ms and retries the same call; any other error is
re-thrown immediately. -/
def executeWithRetry (fn : Nat → CallResult α) (retries : Nat) : RetryTrace α :=
  match fn retries with
  | .ok v => ⟨.ok v, 1, []⟩
  | .err is429 =>
    if h : is429 = true ∧ retries < maxRetries then
      let t := executeWithRetry fn (retries + 1)
      ⟨t.result, t.attempts + 1, (2 ^ retries * 1000) :: t.delays⟩
    else ⟨.err is429, 1, []⟩
  termination_by maxRetries - retries
  decreasing_by omega

/-- One dispatched upstream call as the rate limiter's single serialized
queue processes it: how long the call itself takes and how long the limiter
sleeps afterwards before the next dispatch is considered (the backoff sleep
of a retry, or `0`). -/
structure Attempt where
  duration : Nat
  postSleep : Nat

/-- Dispatch timestamps produced by the serialized `processQueue` /
`executeWithRetry` loop (solanaService.ts, lines 56-89).  Before every call
to `fn` the limiter computes `timeSinceLastRequest = now - lastRequestTime`,
sleeps `minInterval - timeSinceLastRequest` if that is still below
`minInterval`, then sets `lastRequestTime` to the current time and dispatches.
`clock` is `Date.now()` and subtraction is truncated, matching the
non-negative wall clock.  Concurrent callers all append to the one queue that
`processQueue` drains sequentially, so every dispatch in the process goes
through this loop. -/
def dispatchTimes : List Attempt → Nat → Nat → List Nat
  | [], _, _ => []
  | a :: rest, clock, lastRequestTime =>
    let since := clock - lastRequestTime
    let d := if since < minInterval then clock + (minInterval - since) else clock
    d :: dispatchTimes rest (d + a.duration + a.postSleep) d

/-- A token holder record (`TokenHolderInfo`, solanaService.ts, lines 15-20).
`uiAmount` is `amount / 10^9` computed in rationals in place of the source's
IEEE double. -/
structure TokenHolderInfo where
  owner : String
  amount : Nat
  uiAmount : Rat
  decimals : Nat
  deriving DecidableEq, Repr

/-- The 55-character alphabet `createSampleTokenHolders` draws address
characters from (solanaService.ts, line 236). -/
def sampleChars : List Char :=
  ("ABCDEFGHJKMNPQRSTUVWXYZabcdefghjkmnpqrstuvwxyz123456789").toList

/-- The address generation loop of `createSampleTokenHolders` (solanaService.ts,
lines 236-240): 44 characters, each picked by `Math.random`.  `rc i j` is the
index `Math.floor(Math.random() * chars.length)` drawn for character `j` of
address `i`; out-of-range indices fall back to a default character, which
cannot occur for a faithful `rc` but keeps the function total. -/
def sampleAddress (rc : Nat → Nat → Nat) (i : Nat) : String :=
  String.mk ((List.range 44).map (fun j => sampleChars.getD (rc i j) 'A'))

/-- The comparator `(a, b) => b.amount - a.amount` passed to `Array.sort`:
`a` may stay before `b` exactly when `b.amount ≤ a.amount`. -/
def amountDesc (a b : TokenHolderInfo) : Bool := b.amount ≤ a.amount

/-- `SolanaService.createSampleTokenHolders` (solanaService.ts, lines
231-253): fabricate `limit` holders with random 44-character addresses and
random amounts (`ra i` is the `Math.floor(Math.random() * 1000000000)` drawn
for holder `i`), then sort descending by amount.  `Array.sort` is stable, as
is `List.mergeSort`. -/
def createSampleTokenHolders (rc : Nat → Nat → Nat) (ra : Nat → Nat)
    (limit : Nat) : List TokenHolderInfo :=
  ((List.range limit).map (fun i =>
    { owner := sampleAddress rc i
      amount := ra i
      uiAmount := (ra i : Rat) / 10 ^ 9
      decimals := 9 })).mergeSort amountDesc

/-- What `getTokenHoldersWithFallback` produced: a holder list (possibly
empty, when every fetch method yielded nothing), or a thrown error. -/
inductive FetchOutcome where
  | ok (holders : List TokenHolderInfo)
  | err

/-- `SolanaService.getTopTokenHolders` (solanaService.ts, lines 112-136):
an empty fetch result is replaced by fabricated sample holders; a thrown
fetch error is also replaced by sample holders when `NODE_ENV` is
`development` (`isDev`), and re-thrown otherwise. -/
def getTopTokenHolders (fetch : FetchOutcome) (rc : Nat → Nat → Nat)
    (ra : Nat → Nat) (isDev : Bool) (limit : Nat) :
    Except Unit (List TokenHolderInfo) :=
  match fetch with
  | .ok holders =>
    if holders.length = 0 then Except.ok (createSampleTokenHolders rc ra limit)
    else Except.ok holders
  | .err =>
    if isDev then Except.ok (createSampleTokenHolders rc ra limit)
    else Except.error ()

/-- An inbound WebSocket frame after the handler's `JSON.parse` attempt:
either unparseable (`JSON.parse` threw), or an envelope whose `type` field is
the given string. -/
inductive Inbound where
  | malformed
  | msg (msgType : String)

/-- One outbound reply frame: its `type`, its optional `message` text, and
whether it carries a `timestamp` field. -/
structure Reply where
  replyType : String
  message : Option String
  hasTimestamp : Bool
  deriving DecidableEq, Repr

/-- The supported inbound message types, in the order the `switch` in
server.ts lines 332-409 handles them. -/
def supportedTypes : List String :=
  ["ping", "subscribe", "request_activity", "get_recent_transactions",
    "get_status", "start_monitoring", "stop_monitoring"]

/-- Observable outcome of handling one inbound frame: the reply sent back on
the same connection, and whether the handler closed the connection (no branch
of the source handler ever calls `ws.close()`). -/
structure HandlerOutcome where
  reply : Reply
  closesConn : Bool
  deriving DecidableEq, Repr

/-- The `ws.on('message')` handler (server.ts, lines 326-418).  `JSON.parse`
failure is caught and answered with an error reply; every recognized `type`
answers with its reply type; delegated operations (`opOk t` tells whether the
delegate succeeded) answer with their success reply or with an error reply;
an unrecognized `type` answers with an error reply listing the supported
types.  Every reply in the source carries a timestamp, and no branch closes
the connection. -/
def handleMessage (opOk : String → Bool) (inb : Inbound) : HandlerOutcome :=
  match inb with
  | .malformed =>
    ⟨⟨("error"), some ("Invalid message format. Please send valid JSON."), true⟩, false⟩
  | .msg t =>
    if t = "ping" then ⟨⟨("pong"), none, true⟩, false⟩
    else if t = "subscribe" then ⟨⟨("subscribed"), none, true⟩, false⟩
    else if t = "request_activity" then
      if opOk t then ⟨⟨("wallet_activity"), none, true⟩, false⟩
      else ⟨⟨("error"), some ("Failed to fetch wallet activity"), true⟩, false⟩
    else if t = "get_recent_transactions" then
      if opOk t then ⟨⟨("recent_transactions"), none, true⟩, false⟩
      else ⟨⟨("error"), some ("Failed to fetch recent transactions"), true⟩, false⟩
    else if t = "get_status" then ⟨⟨("status_update"), none, true⟩, false⟩
    else if t = "start_monitoring" then
      if opOk t then ⟨⟨("monitoring_started"), none, true⟩, false⟩
      else ⟨⟨("error"), some ("Failed to start monitoring"), true⟩, false⟩
    else if t = "stop_monitoring" then
      if opOk t then ⟨⟨("monitoring_stopped"), none, true⟩, false⟩
      else ⟨⟨("error"), some ("Failed to stop monitoring"), true⟩, false⟩
    else
      ⟨⟨("error"),
        some ("Unknown message type: " ++ t ++
          (". Supported types: ping, subscribe, request_activity, " ++
            "get_recent_transactions, get_status, start_monitoring, stop_monitoring")),
        true⟩, false⟩




theorem countP_bnot_add (p : String → Bool) (l : List String) :
    l.countP (fun w => !p w) + l.countP (fun w => p w) = l.length := by
  induction l with
  | nil => simp
  | cons a l ih =>
    by_cases h : p a = true <;> simp [List.countP_cons, h] <;> omega

theorem broadcastLoop_spec (l : List Conn)
    (h : ∀ c ∈ l, c.readyState = ReadyState.opened → c.sendThrows = false) :
    ∀ count kept, broadcastLoop l count kept =
      ⟨false, count + l.countP (fun c => c.readyState == ReadyState.opened),
        kept.reverse ++ l.filter (fun c => c.readyState == ReadyState.opened)⟩ := by
  induction l with
  | nil => intro count kept; simp [broadcastLoop]
  | cons c rest ih =>
    intro count kept
    have hrest : ∀ x ∈ rest, x.readyState = ReadyState.opened → x.sendThrows = false :=
      fun x hx => h x (List.mem_cons_of_mem c hx)
    by_cases hc : c.readyState = ReadyState.opened
    · have hnt : c.sendThrows = false := h c (List.mem_cons_self c rest) hc
      rw [broadcastLoop]
      simp only [hc, if_pos rfl, hnt]
      rw [ih hrest (count + 1) (c :: kept)]
      simp [List.countP_cons, List.filter_cons, hc]
      omega
    · rw [broadcastLoop]
      simp only [if_neg hc]
      rw [ih hrest count kept]
      simp [List.countP_cons, List.filter_cons, hc]

theorem bulkSyncGo_eq (fails : String → Bool) (bs : Nat) (l : List String) :
    bulkSyncGo fails bs l =
      ⟨l.countP (fun w => !fails w), l.countP (fun w => fails w)⟩ := by
  generalize hn : l.length = n
  induction n using Nat.strong_induction_on generalizing l with
  | _ n ih =>
    cases l with
    | nil => simp [bulkSyncGo]
    | cons a rest =>
      rw [bulkSyncGo]
      have hlen : (rest.drop (bs - 1)).length < n := by
        subst hn; simp; omega
      rw [ih _ hlen _ rfl]
      have hsplit : a :: rest.take (bs - 1) ++ rest.drop (bs - 1) = a :: rest := by
        simp [List.take_append_drop]
      have h1 := List.countP_append (fun w => !fails w) (a :: rest.take (bs - 1)) (rest.drop (bs - 1))
      have h2 := List.countP_append (fun w => fails w) (a :: rest.take (bs - 1)) (rest.drop (bs - 1))
      rw [hsplit] at h1 h2
      simp only [SyncTotals.mk.injEq]
      exact ⟨h1.symm, h2.symm⟩





/-- Claim C1, corrected.  When no OPEN connection's send throws,
`broadcastToClients` delivers to exactly the OPEN connections, the logged
`clientCount` equals their number, and exactly they remain registered
(non-OPEN connections are pruned).  The original claim fails because a
throwing send is not caught: it aborts delivery to the remaining connections
and the thrower stays registered (see the counterexample). -/
theorem claim_C1_broadcast_resilience (conns : List Conn)
    (h : ∀ c ∈ conns, c.readyState = ReadyState.opened → c.sendThrows = false) :
    broadcastToClients conns =
      ⟨false, (conns.filter (fun c => c.readyState == ReadyState.opened)).length,
        conns.filter (fun c => c.readyState == ReadyState.opened)⟩ := by
  rw [broadcastToClients, broadcastLoop_spec conns h 0 []]
  simp [List.countP_eq_length_filter]

/-- Witness for C1: 5 registered connections of which 2 are closed; the
broadcast does not throw, counts 3 successes and leaves exactly the 3 OPEN
connections registered. -/
theorem claim_C1_broadcast_resilience_witness :
    (∀ c ∈ [Conn.mk 0 ReadyState.opened false, Conn.mk 1 ReadyState.closed false,
        Conn.mk 2 ReadyState.opened false, Conn.mk 3 ReadyState.closing false,
        Conn.mk 4 ReadyState.opened false],
      c.readyState = ReadyState.opened → c.sendThrows = false) ∧
    broadcastToClients
      [Conn.mk 0 ReadyState.opened false, Conn.mk 1 ReadyState.closed false,
        Conn.mk 2 ReadyState.opened false, Conn.mk 3 ReadyState.closing false,
        Conn.mk 4 ReadyState.opened false] =
      ⟨false, 3, [Conn.mk 0 ReadyState.opened false, Conn.mk 2 ReadyState.opened false,
        Conn.mk 4 ReadyState.opened false]⟩ :=
  ⟨by decide,
    (claim_C1_broadcast_resilience _ (by decide)).trans (by decide)⟩

/-- Counterexample for C1 as stated: 5 registered OPEN connections of which
2 throw on send.  The claim predicts 3 successful deliveries and 3 remaining
registered connections; the code instead lets the first throw escape the
`forEach`, having delivered to 1 connection, and leaves all 5 registered. -/
theorem claim_C1_counterexample :
    (broadcastToClients
      [Conn.mk 0 ReadyState.opened false, Conn.mk 1 ReadyState.opened true,
        Conn.mk 2 ReadyState.opened false, Conn.mk 3 ReadyState.opened true,
        Conn.mk 4 ReadyState.opened false]).threw = true ∧
    (broadcastToClients
      [Conn.mk 0 ReadyState.opened false, Conn.mk 1 ReadyState.opened true,
        Conn.mk 2 ReadyState.opened false, Conn.mk 3 ReadyState.opened true,
        Conn.mk 4 ReadyState.opened false]).conns.length = 5 ∧
    ¬((broadcastToClients
      [Conn.mk 0 ReadyState.opened false, Conn.mk 1 ReadyState.opened true,
        Conn.mk 2 ReadyState.opened false, Conn.mk 3 ReadyState.opened true,
        Conn.mk 4 ReadyState.opened false]).count = 3 ∧
      (broadcastToClients
        [Conn.mk 0 ReadyState.opened false, Conn.mk 1 ReadyState.opened true,
          Conn.mk 2 ReadyState.opened false, Conn.mk 3 ReadyState.opened true,
          Conn.mk 4 ReadyState.opened false]).conns.length = 3) := by
  decide

/-- Claim C2, confirmed.  For every worklist and every failure pattern, the
batch sync run returns `success + failed = len(worklist)`, and the totals
record exactly one outcome per item: `success` counts exactly the items whose
sync succeeded and `failed` counts exactly the items whose sync threw, so a
single item's failure is absorbed into the count without stopping the run. -/
theorem claim_C2_sync_accounting (fails : String → Bool) (wallets : List String) :
    (syncAllWalletTransactions fails wallets).success +
        (syncAllWalletTransactions fails wallets).failed = wallets.length ∧
    (syncAllWalletTransactions fails wallets).success =
        wallets.countP (fun w => !fails w) ∧
    (syncAllWalletTransactions fails wallets).failed =
        wallets.countP (fun w => fails w) := by
  rw [syncAllWalletTransactions, bulkSyncGo_eq]
  exact ⟨countP_bnot_add fails wallets, rfl, rfl⟩

/-- Claim C7, corrected (amended part).  `performBulkSync` takes no
cancellation signal at all: every run attempts every item of the worklist and
always returns with `success + failed = len(worklist)`; a result with
`success + failed < len(worklist)` is unreachable. -/
theorem claim_C7_no_cancellation (fails : String → Bool) (batchSize : Nat)
    (walletAddresses : List String) :
    (performBulkSync fails batchSize walletAddresses).success +
        (performBulkSync fails batchSize walletAddresses).failed =
      walletAddresses.length := by
  rw [performBulkSync, bulkSyncGo_eq]
  exact countP_bnot_add fails walletAddresses

/-- Witness for C7's amended statement at a concrete input: a worklist of 7
wallets of which 2 fail still yields `success + failed = 7`. -/
theorem claim_C7_no_cancellation_witness :
    (performBulkSync (fun w => w == "w3" || w == "w5") 5
        [("w0"), ("w1"), ("w2"), ("w3"), ("w4"), ("w5"), ("w6")]).success +
      (performBulkSync (fun w => w == "w3" || w == "w5") 5
        [("w0"), ("w1"), ("w2"), ("w3"), ("w4"), ("w5"), ("w6")]).failed = 7 :=
  claim_C7_no_cancellation _ _ _

/-- Counterexample for C7 as stated: the claim requires a cancelled run to
return `success + failed` strictly below `len(worklist)`, but on the concrete
7-item worklist (2 items failing, batch size 5) the run attempts everything —
`success + failed = 7 = len(worklist)`, never strictly less, because no
cancellation signal exists in `performBulkSync` or its callers. -/
theorem claim_C7_counterexample :
    (performBulkSync (fun w => w == "w3" || w == "w5") 5
        [("w0"), ("w1"), ("w2"), ("w3"), ("w4"), ("w5"), ("w6")]).success = 5 ∧
    (performBulkSync (fun w => w == "w3" || w == "w5") 5
        [("w0"), ("w1"), ("w2"), ("w3"), ("w4"), ("w5"), ("w6")]).failed = 2 ∧
    ¬((performBulkSync (fun w => w == "w3" || w == "w5") 5
        [("w0"), ("w1"), ("w2"), ("w3"), ("w4"), ("w5"), ("w6")]).success +
      (performBulkSync (fun w => w == "w3" || w == "w5") 5
        [("w0"), ("w1"), ("w2"), ("w3"), ("w4"), ("w5"), ("w6")]).failed < 7) := by
  rw [performBulkSync, bulkSyncGo_eq]
  decide





theorem mapSet_length_fresh (k : String) (v : Nat) (l : List (String × Nat))
    (h : ∀ p ∈ l, p.1 ≠ k) : (mapSet k v l).length = l.length + 1 := by
  induction l with
  | nil => simp [mapSet]
  | cons p rest ih =>
    have hp : p.1 ≠ k := h p (List.mem_cons_self p rest)
    rw [mapSet]
    simp only [if_neg hp]
    simp [ih (fun q hq => h q (List.mem_cons_of_mem p hq))]

theorem mem_mapSet (k : String) (v : Nat) (l : List (String × Nat)) (q : String × Nat)
    (h : q ∈ mapSet k v l) : q.1 = k ∨ q ∈ l := by
  induction l with
  | nil => simp [mapSet] at h; simp [h]
  | cons p rest ih =>
    rw [mapSet] at h
    by_cases hk : p.1 = k
    · simp only [if_pos hk, List.mem_cons] at h
      rcases h with h | h
      · exact Or.inl (by simp [h])
      · exact Or.inr (List.mem_cons_of_mem p h)
    · simp only [if_neg hk, List.mem_cons] at h
      rcases h with h | h
      · exact Or.inr (by simp [h])
      · rcases ih h with h2 | h2
        · exact Or.inl h2
        · exact Or.inr (List.mem_cons_of_mem p h2)

theorem subscribeLoop_subs_length (subFails : String → Bool) (ws : List String) :
    ∀ (m : MonitorState) (u : Upstream), ws.Nodup →
      (∀ w ∈ ws, ∀ p ∈ m.subscriptions, p.1 ≠ w) →
      (subscribeLoop subFails ws m u).1.subscriptions.length =
        m.subscriptions.length + ws.countP (fun w => !subFails w) := by
  induction ws with
  | nil => intro m u _ _; simp [subscribeLoop]
  | cons w rest ih =>
    intro m u hnd hfresh
    have hw : w ∉ rest := (List.nodup_cons.mp hnd).1
    have hrestnd : rest.Nodup := (List.nodup_cons.mp hnd).2
    by_cases hf : subFails w = true
    · rw [subscribeLoop]
      simp only [if_pos hf]
      rw [ih m u hrestnd
        (fun x hx => hfresh x (List.mem_cons_of_mem w hx))]
      simp [List.countP_cons, hf]
    · rw [subscribeLoop]
      simp only [if_neg hf]
      have hfr : ∀ x ∈ rest, ∀ p ∈ mapSet w u.nextId m.subscriptions, p.1 ≠ x := by
        intro x hx p hp
        rcases mem_mapSet w u.nextId m.subscriptions p hp with h1 | h1
        · rw [h1]; intro he; exact hw (he ▸ hx)
        · exact hfresh x (List.mem_cons_of_mem w hx) p h1
      rw [ih _ _ hrestnd hfr]
      simp only [subscribeToAccountChanges]
      rw [mapSet_length_fresh w u.nextId m.subscriptions
        (hfresh w (List.mem_cons_self w rest))]
      simp [List.countP_cons, hf]
      omega

/-- Claim C3, corrected.  Starting the watch twice in a row for the same
entity is not a no-op: the second `startMonitoring` call subscribes upstream
again (adding a second live listener and a fresh handle that overwrites the
registry entry, leaking the first).  The registry still holds one entry, so
`status().count = 1`, and `stopMonitoring` afterwards yields
`status().count = 0`. -/
theorem claim_C3_watch_not_idempotent (x : String) (st : ServerState)
    (h : st.monitor.subscriptions = []) :
    (getStatus (startMonitoring [x] (fun _ => false)
        (startMonitoring [x] (fun _ => false) st))).2 = 1 ∧
    (startMonitoring [x] (fun _ => false)
        (startMonitoring [x] (fun _ => false) st)).monitor.subscriptions =
      [(x, st.upstream.nextId + 1)] ∧
    (startMonitoring [x] (fun _ => false)
        (startMonitoring [x] (fun _ => false) st)).upstream.listeners.length =
      st.upstream.listeners.length + 2 ∧
    (getStatus (stopMonitoring (fun _ => false)
      (startMonitoring [x] (fun _ => false)
        (startMonitoring [x] (fun _ => false) st)))).2 = 0 := by
  simp [startMonitoring, subscribeLoop, subscribeToAccountChanges, mapSet, h,
    getStatus, stopMonitoring]

/-- Witness for C3's amended statement: from an empty registry, two
consecutive starts for entity `A` leave one registry entry holding the second
handle, two live upstream listeners, and a stop empties the registry. -/
theorem claim_C3_watch_not_idempotent_witness :
    (ServerState.mk ⟨[], false⟩ [] ⟨0, []⟩).monitor.subscriptions = [] ∧
    (getStatus (startMonitoring [("A")] (fun _ => false)
        (startMonitoring [("A")] (fun _ => false)
          (ServerState.mk ⟨[], false⟩ [] ⟨0, []⟩)))).2 = 1 ∧
    (startMonitoring [("A")] (fun _ => false)
        (startMonitoring [("A")] (fun _ => false)
          (ServerState.mk ⟨[], false⟩ [] ⟨0, []⟩))).upstream.listeners.length =
      (ServerState.mk ⟨[], false⟩ [] ⟨0, []⟩).upstream.listeners.length + 2 := by
  refine ⟨rfl, ?_, ?_⟩
  · exact (claim_C3_watch_not_idempotent ("A") _ rfl).1
  · exact (claim_C3_watch_not_idempotent ("A") _ rfl).2.2.1

/-- Counterexample for C3 as stated: starting from the empty state, watching
entity `A` twice installs two live upstream listeners (ids 0 and 1) — a
duplicate upstream subscription — and the registry entry now holds handle 1,
not the original handle 0, so the second call was not a no-op returning the
existing handle. -/
theorem claim_C3_counterexample :
    (startMonitoring [("A")] (fun _ => false)
        (startMonitoring [("A")] (fun _ => false)
          (ServerState.mk ⟨[], false⟩ [] ⟨0, []⟩))).upstream.listeners = [1, 0] ∧
    ¬((startMonitoring [("A")] (fun _ => false)
        (startMonitoring [("A")] (fun _ => false)
          (ServerState.mk ⟨[], false⟩ [] ⟨0, []⟩))).upstream.listeners.length = 1) ∧
    (startMonitoring [("A")] (fun _ => false)
        (ServerState.mk ⟨[], false⟩ [] ⟨0, []⟩)).monitor.subscriptions = [(("A"), 0)] ∧
    (startMonitoring [("A")] (fun _ => false)
        (startMonitoring [("A")] (fun _ => false)
          (ServerState.mk ⟨[], false⟩ [] ⟨0, []⟩))).monitor.subscriptions = [(("A"), 1)] := by
  decide

/-- Claim C9, confirmed.  Subscribing to `N` entities of which `k` fail:
each failure is caught inside the per-wallet try/catch (the loop continues,
so the remaining entities still get subscribed), and afterwards
`status().count` equals the number of successful subscriptions `N - k`,
here expressed as the count of non-failing wallets. -/
theorem claim_C9_status_consistency (wallets : List String)
    (subFails : String → Bool) (st : ServerState)
    (hs : st.monitor.subscriptions = []) (hnd : wallets.Nodup) :
    (getStatus (startMonitoring wallets subFails st)).2 =
      wallets.countP (fun w => !subFails w) := by
  cases wallets with
  | nil => simp [startMonitoring, getStatus, hs]
  | cons w rest =>
    rw [startMonitoring]
    simp only [List.isEmpty_cons, if_neg Bool.false_ne_true, getStatus]
    rw [subscribeLoop_subs_length subFails (w :: rest) st.monitor st.upstream hnd
      (by intro x _ p hp; rw [hs] at hp; exact absurd hp (List.not_mem_nil p))]
    rw [hs]
    simp

/-- Witness for C9: 10 wallets of which exactly 2 (`w3`, `w7`) fail to
subscribe; afterwards `status().count = 8`. -/
theorem claim_C9_status_consistency_witness :
    ((ServerState.mk ⟨[], false⟩ [] ⟨0, []⟩).monitor.subscriptions = [] ∧
      List.Nodup [("w0"), ("w1"), ("w2"), ("w3"), ("w4"), ("w5"), ("w6"), ("w7"), ("w8"), ("w9")]) ∧
    (getStatus (startMonitoring
        [("w0"), ("w1"), ("w2"), ("w3"), ("w4"), ("w5"), ("w6"), ("w7"), ("w8"), ("w9")]
        (fun w => w == "w3" || w == "w7")
        (ServerState.mk ⟨[], false⟩ [] ⟨0, []⟩))).2 = 8 :=
  ⟨⟨rfl, by decide⟩,
    (claim_C9_status_consistency _ _ _ rfl (by decide)).trans (by decide)⟩

/-- Claim C10, corrected.  `stopMonitoring` clears the subscription map, sets
the monitoring flag to false, never closes a connection, and every OPEN
connection stays registered — but its completion broadcast prunes non-OPEN
connections from the live set, so when every registered connection is OPEN
and none throws on send the set is exactly the OPEN ones (and only then is it
unchanged).  The original claim's "mutates only the watch-subscription map
and the monitoring flag" fails on a state holding a closed connection (see
the counterexample). -/
theorem claim_C10_stop_frame (unsubFails : Nat → Bool) (st : ServerState)
    (h : ∀ c ∈ st.wsConns, c.readyState = ReadyState.opened → c.sendThrows = false) :
    (stopMonitoring unsubFails st).monitor.subscriptions = [] ∧
    (stopMonitoring unsubFails st).monitor.isMonitoring = false ∧
    (stopMonitoring unsubFails st).wsConns =
      st.wsConns.filter (fun c => c.readyState == ReadyState.opened) ∧
    (∀ c ∈ (stopMonitoring unsubFails st).wsConns, c ∈ st.wsConns) := by
  refine ⟨rfl, rfl, ?_, ?_⟩
  · simp only [stopMonitoring, broadcastToClients]
    rw [broadcastLoop_spec st.wsConns h 0 []]
    simp
  · intro c hc
    simp only [stopMonitoring, broadcastToClients] at hc
    rw [broadcastLoop_spec st.wsConns h 0 []] at hc
    simp only [List.reverse_nil, List.nil_append] at hc
    exact List.mem_of_mem_filter hc

/-- Witness for C10's amended statement: with two registered OPEN connections
(neither throwing), stopping the monitor empties the registry, clears the
flag, and leaves the connection set exactly as it was. -/
theorem claim_C10_stop_frame_witness :
    (∀ c ∈ [Conn.mk 0 ReadyState.opened false, Conn.mk 1 ReadyState.opened false],
      c.readyState = ReadyState.opened → c.sendThrows = false) ∧
    (stopMonitoring (fun _ => false)
        (ServerState.mk ⟨[(("A"), 0)], true⟩
          [Conn.mk 0 ReadyState.opened false, Conn.mk 1 ReadyState.opened false]
          ⟨1, [0]⟩)).wsConns =
      [Conn.mk 0 ReadyState.opened false, Conn.mk 1 ReadyState.opened false] :=
  ⟨by decide,
    ((claim_C10_stop_frame (fun _ => false) _ (by decide)).2.2.1).trans (by decide)⟩

/-- Counterexample for C10 as stated: on a state whose connection set holds a
single closed connection, `stopMonitoring` does not leave the connection set
unchanged — the completion broadcast prunes the closed connection, so the
operation mutates more than the subscription map and the monitoring flag. -/
theorem claim_C10_counterexample :
    (stopMonitoring (fun _ => false)
        (ServerState.mk ⟨[], true⟩ [Conn.mk 0 ReadyState.closed false] ⟨0, []⟩)).wsConns = [] ∧
    ¬((stopMonitoring (fun _ => false)
        (ServerState.mk ⟨[], true⟩ [Conn.mk 0 ReadyState.closed false] ⟨0, []⟩)).wsConns =
      (ServerState.mk ⟨[], true⟩ [Conn.mk 0 ReadyState.closed false] ⟨0, []⟩).wsConns) := by
  decide





theorem dispatchTimes_head_ge (l : List Attempt) (clock last : Nat) (h : last ≤ clock) :
    ∀ t ∈ (dispatchTimes l clock last).head?, last + minInterval ≤ t := by
  cases l with
  | nil => simp [dispatchTimes]
  | cons a rest =>
    intro t ht
    by_cases hc : clock - last < minInterval <;>
      simp [dispatchTimes, hc] at ht <;> omega

theorem dispatchTimes_chain (l : List Attempt) :
    ∀ clock last, List.Chain' (fun t1 t2 => t1 + minInterval ≤ t2)
      (dispatchTimes l clock last) := by
  induction l with
  | nil => intro clock last; simp [dispatchTimes]
  | cons a rest ih =>
    intro clock last
    simp only [dispatchTimes]
    rw [List.chain'_cons']
    constructor
    · intro y hy
      refine dispatchTimes_head_ge rest _ _ ?_ y hy
      omega
    · exact ih _ _

/-- Claim C6, confirmed.  Under the serialized queue of `RateLimiter` (every
dispatched call in the process passes through the one `processQueue` loop, no
matter how many callers enqueued work), consecutive dispatch timestamps are
always at least `minInterval = 100` ms apart, from any initial clock and
`lastRequestTime`. -/
theorem claim_C6_pacing (attempts : List Attempt) (clock lastRequestTime : Nat) :
    minInterval = 100 ∧
    List.Chain' (fun t1 t2 => t1 + minInterval ≤ t2)
      (dispatchTimes attempts clock lastRequestTime) :=
  ⟨rfl, dispatchTimes_chain attempts clock lastRequestTime⟩

/-- Claim C5, confirmed.  A call whose every attempt fails with a rate-limit
(429) error is attempted exactly `maxRetries + 1 = 4` times with backoff
delays 1000 ms, 2000 ms, 4000 ms between attempts, after which the terminal
error surfaces; a call whose first attempt fails with a non-429 error is
attempted exactly once, with no delay, and the error propagates. -/
theorem claim_C5_backoff {α : Type} (fn g : Nat → CallResult α) :
    ((∀ i, fn i = CallResult.err true) →
      executeWithRetry fn 0 = ⟨CallResult.err true, 4, [1000, 2000, 4000]⟩) ∧
    (g 0 = CallResult.err false →
      executeWithRetry g 0 = ⟨CallResult.err false, 1, []⟩) := by
  constructor
  · intro h
    simp [executeWithRetry, h, maxRetries]
  · intro h
    simp [executeWithRetry, h]

/-- Witness for C5: the constant-429 function is attempted 4 times with
delays 1s, 2s, 4s; the constant non-429 function fails after one attempt. -/
theorem claim_C5_backoff_witness :
    ((∀ i : Nat, (fun _ : Nat => (CallResult.err true : CallResult Nat)) i = CallResult.err true) ∧
      executeWithRetry (fun _ : Nat => (CallResult.err true : CallResult Nat)) 0 =
        ⟨CallResult.err true, 4, [1000, 2000, 4000]⟩) ∧
    ((fun _ : Nat => (CallResult.err false : CallResult Nat)) 0 = CallResult.err false ∧
      executeWithRetry (fun _ : Nat => (CallResult.err false : CallResult Nat)) 0 =
        ⟨CallResult.err false, 1, []⟩) :=
  ⟨⟨fun _ => rfl,
      (claim_C5_backoff (fun _ : Nat => (CallResult.err true : CallResult Nat))
        (fun _ : Nat => (CallResult.err false : CallResult Nat))).1 (fun _ => rfl)⟩,
    ⟨rfl,
      (claim_C5_backoff (fun _ : Nat => (CallResult.err true : CallResult Nat))
        (fun _ : Nat => (CallResult.err false : CallResult Nat))).2 rfl⟩⟩

/-- Claim C4, confirmed.  When every upstream fetch method yields zero
holders, `getTopTokenHolders` returns fabricated sample data instead of the
empty list — and returns the same fabricated data when the fetch throws and
`NODE_ENV` is `development` — namely exactly `limit` holders, each with a
44-character randomly generated address, sorted in descending order of
amount; discovery then persists these entities although they do not exist on
the ledger. -/
theorem claim_C4_fabricated_holders (rc : Nat → Nat → Nat) (ra : Nat → Nat)
    (isDev : Bool) (limit : Nat) :
    getTopTokenHolders (FetchOutcome.ok []) rc ra isDev limit =
      Except.ok (createSampleTokenHolders rc ra limit) ∧
    getTopTokenHolders FetchOutcome.err rc ra true limit =
      Except.ok (createSampleTokenHolders rc ra limit) ∧
    (createSampleTokenHolders rc ra limit).length = limit ∧
    (∀ a ∈ createSampleTokenHolders rc ra limit, a.owner.length = 44) ∧
    List.Pairwise (fun a b => b.amount ≤ a.amount)
      (createSampleTokenHolders rc ra limit) := by
  refine ⟨by simp [getTopTokenHolders], by simp [getTopTokenHolders], ?_, ?_, ?_⟩
  · simp [createSampleTokenHolders, List.length_mergeSort]
  · intro a ha
    rw [createSampleTokenHolders, List.mem_mergeSort] at ha
    obtain ⟨i, _, rfl⟩ := List.mem_map.mp ha
    simp [sampleAddress, String.length]
  · have htrans : ∀ a b c : TokenHolderInfo, amountDesc a b = true →
        amountDesc b c = true → amountDesc a c = true := by
      intro a b c hab hbc
      simp only [amountDesc, decide_eq_true_eq] at hab hbc ⊢
      omega
    have htot : ∀ a b : TokenHolderInfo, (amountDesc a b || amountDesc b a) = true := by
      intro a b
      simp only [amountDesc, Bool.or_eq_true, decide_eq_true_eq]
      omega
    have hs := List.sorted_mergeSort htrans htot
      ((List.range limit).map (fun i =>
        { owner := sampleAddress rc i
          amount := ra i
          uiAmount := (ra i : Rat) / 10 ^ 9
          decimals := 9 }))
    rw [createSampleTokenHolders]
    exact hs.imp (fun hab => by
      simpa only [amountDesc, decide_eq_true_eq] using hab)

/-- Claim C8, confirmed.  An inbound `{"type":"ping"}` is answered with a
`pong` reply carrying a timestamp; an unrecognized type is answered with an
`error` reply whose message lists the supported types; unparseable input is
answered with an `error` reply; and no inbound frame whatsoever makes the
handler close the connection. -/
theorem claim_C8_protocol (opOk : String → Bool) :
    (handleMessage opOk (Inbound.msg ("ping"))).reply =
      ⟨("pong"), none, true⟩ ∧
    (∀ t, t ∉ supportedTypes →
      (handleMessage opOk (Inbound.msg t)).reply.replyType = "error" ∧
      (handleMessage opOk (Inbound.msg t)).reply.message =
        some ("Unknown message type: " ++ t ++
          (". Supported types: " ++ String.intercalate ", " supportedTypes))) ∧
    (handleMessage opOk Inbound.malformed).reply.replyType = "error" ∧
    (∀ inb, (handleMessage opOk inb).closesConn = false) := by
  refine ⟨rfl, ?_, rfl, ?_⟩
  · intro t ht
    simp only [supportedTypes, List.mem_cons, List.not_mem_nil, or_false,
      not_or] at ht
    obtain ⟨h1, h2, h3, h4, h5, h6, h7⟩ := ht
    have hsuffix : (". Supported types: ping, subscribe, request_activity, " ++
        "get_recent_transactions, get_status, start_monitoring, stop_monitoring") =
        ". Supported types: " ++ String.intercalate ", " supportedTypes := rfl
    simp only [handleMessage, if_neg h1, if_neg h2, if_neg h3, if_neg h4,
      if_neg h5, if_neg h6, if_neg h7, hsuffix]
    exact ⟨trivial, trivial⟩
  · intro inb
    cases inb with
    | malformed => rfl
    | msg t =>
      simp only [handleMessage]
      split_ifs <;> rfl

/-- Witness for C8: `ping` round-trips to a timestamped `pong`, and the
unrecognized type `bogus` is answered with an `error` reply. -/
theorem claim_C8_protocol_witness :
    (handleMessage (fun _ => true) (Inbound.msg ("ping"))).reply =
      ⟨("pong"), none, true⟩ ∧
    (("bogus") ∉ supportedTypes ∧
      (handleMessage (fun _ => true) (Inbound.msg ("bogus"))).reply.replyType =
        "error") :=
  ⟨(claim_C8_protocol (fun _ => true)).1,
    by decide,
    ((claim_C8_protocol (fun _ => true)).2.1 ("bogus") (by decide)).1⟩

end TokenWise
